import Mathlib

/-!
# Verification of the lynx trading core

Shallow embedding of the trading core of the repository:

* `jupiter_integration.py` — swap-quote/execute client (`jupiter_get_quote`,
  `buy_token_jupiter`, `sell_token_jupiter`);
* `trading.py` — the per-agent buy/hold/sell/rest cycle (`run_wallet_cycle`);
* `load_withdrawal.py` — fund movement (`load_all_agents`,
  `collect_agents_to_root`).

Network and ledger interaction is modelled by explicit environments: the
quote endpoint is a stream of per-attempt events, the swap/transfer results
are supplied as data.  Python `float` amounts are modelled as exact
rationals; Python's `int(x)` conversion is truncation toward zero (`pyInt`).
-/

namespace Lynx

/-- Python's `int(q)` on a rational: truncation toward zero
(`q.num.tdiv q.den`, since `tdiv` is T-division). -/
def pyInt (q : ℚ) : Int :=
  q.num.tdiv q.den

/-- The parsed JSON body of a quote response, as `jupiter_get_quote` and
`buy_token_jupiter` inspect it: `isEmpty` is Python's `not data`;
`routePlan` is `none` when the `"routePlan"` key is absent, otherwise the
(possibly empty) list under that key; `outAmount` is `some n` when the
`"outAmount"` field is present and parses with `int(...)`, else `none`. -/
structure QuoteData where
  isEmpty : Bool
  routePlan : Option (List Unit)
  outAmount : Option Int
  deriving DecidableEq, Repr

/-- One interaction of `jupiter_get_quote` with the quote endpoint:
either an HTTP response (status code, parsed `Retry-After` header if any,
parsed JSON body) or a transport-level failure (any exception inside the
`try` block: connection error, timeout, JSON decode error, ...). -/
inductive QuoteEvent where
  | response (status : Nat) (retryAfter : Option Nat) (data : QuoteData)
  | transportError
  deriving DecidableEq, Repr

/-- Result of `jupiter_get_quote`: the returned dictionary is either the
quote data or the empty dict `{}`. -/
inductive QuoteOutcome where
  | success (data : QuoteData)
  | empty
  deriving DecidableEq, Repr

/-- The retry loop of `jupiter_get_quote` (src/jupiter_integration.py,
lines 37–65).  `env a` is what the endpoint does on the iteration entered
with `attempt = a`; `remaining = max_retries - attempt` is the fuel of the
`while attempt < max_retries` loop.  Returns the outcome together with the
list of sleep durations (seconds) performed, in order:
* status 429 ⇒ sleep `Retry-After` (default 5), `attempt += 1`, continue;
* any other status ≠ 200 ⇒ return `{}` immediately;
* status 200 with falsy body or no `"routePlan"` key ⇒ return `{}`;
* status 200 otherwise ⇒ return the data;
* exception ⇒ sleep `2^attempt`, `attempt += 1`, continue. -/
def getQuoteGo (env : Nat → QuoteEvent) : Nat → Nat → QuoteOutcome × List Nat
  | _, 0 => (QuoteOutcome.empty, [])
  | attempt, remaining + 1 =>
    match env attempt with
    | QuoteEvent.response status retryAfter data =>
      if status = 429 then
        let rest := getQuoteGo env (attempt + 1) remaining
        (rest.1, retryAfter.getD 5 :: rest.2)
      else if status ≠ 200 then
        (QuoteOutcome.empty, [])
      else if data.isEmpty || data.routePlan.isNone then
        (QuoteOutcome.empty, [])
      else
        (QuoteOutcome.success data, [])
    | QuoteEvent.transportError =>
      let rest := getQuoteGo env (attempt + 1) remaining
      (rest.1, 2 ^ attempt :: rest.2)

/-- The function `jupiter_get_quote` with its retry loop started at
`attempt = 0` (the source's default budget is `max_retries = 5`). -/
def jupiter_get_quote (env : Nat → QuoteEvent) (max_retries : Nat) :
    QuoteOutcome × List Nat :=
  getQuoteGo env 0 max_retries

/-- Conversion of a SOL amount to lamports in `buy_token_jupiter`:
`lamports = int(amount_sol * 1_000_000_000)`. -/
def lamports_of_sol (amount_sol : ℚ) : Int :=
  pyInt (amount_sol * 1000000000)

/-- Environment for one `buy_token_jupiter` / `sell_token_jupiter` call:
the per-attempt behaviour of the quote endpoint and the outcome of
`jupiter_swap` (`some signature` on success, `none` on any failure). -/
structure SwapEnv where
  quoteEvents : Nat → QuoteEvent
  swapResult : Option String

/-- Result of `buy_token_jupiter`, instrumented with whether a quote
request was issued to the aggregator at all. -/
structure BuyOutcome where
  result : Option (String × Int)
  quoteRequested : Bool
  deriving DecidableEq, Repr

/-- The function `buy_token_jupiter` (src/jupiter_integration.py, lines 127–165):
convert SOL to lamports with `int(...)`; reject below the dust floor of
100 000 lamports before any quote request; quote with the default budget
of 5 retries; on an empty quote return `None`; parse `outAmount` with
`int(...)`, any failure (missing key included) yielding `0`; execute the
swap and return `(signature, out_amount)` or `None`. -/
def buy_token_jupiter (env : SwapEnv) (amount_sol : ℚ) : BuyOutcome :=
  let lamports := lamports_of_sol amount_sol
  if lamports < 100000 then
    { result := none, quoteRequested := false }
  else
    match (jupiter_get_quote env.quoteEvents 5).1 with
    | QuoteOutcome.empty => { result := none, quoteRequested := true }
    | QuoteOutcome.success q =>
      let out_amount := q.outAmount.getD 0
      match env.swapResult with
      | none => { result := none, quoteRequested := true }
      | some sig => { result := some (sig, out_amount), quoteRequested := true }

/-- The function `sell_token_jupiter` (src/jupiter_integration.py, lines 168–192):
quote the token→SOL swap; on an empty quote return `None`; otherwise the
result of `jupiter_swap`. -/
def sell_token_jupiter (env : SwapEnv) : Option String :=
  match (jupiter_get_quote env.quoteEvents 5).1 with
  | QuoteOutcome.empty => none
  | QuoteOutcome.success _ => env.swapResult

/-- Agent settings as read at the top of each cycle iteration
(`get_agent_settings`).  `fixed_buy` is a SOL amount (`FLOAT` column,
modelled as an exact rational); `fixed_sell_delay` and `fixed_rest_delay`
are seconds (`INT` columns in `database.py`'s `agent_settings` schema);
`sell_enabled` is a boolean. -/
structure AgentSettings where
  fixed_buy : ℚ
  fixed_sell_delay : Int
  fixed_rest_delay : Int
  sell_enabled : Bool
  deriving DecidableEq, Repr

/-- Environment for one iteration of `run_wallet_cycle`'s `while` loop:
`flagAtCheck` is `active_trading.get(user_id, False)` at the loop head;
`settings` the agent settings loaded for this iteration; `sol_balance` the
wallet balance read by `get_sol_balance`; `buyResult` and `sellResult` the
values `buy_token_jupiter` / `sell_token_jupiter` would return if invoked
this iteration. -/
structure IterEnv where
  flagAtCheck : Bool
  settings : AgentSettings
  sol_balance : ℚ
  buyResult : Option (String × Int)
  sellResult : Option String

/-- Observable actions of one cycle iteration, in program order:
`asyncio.sleep` calls (duration in seconds) and invocations of the swap
client's buy and sell operations. -/
inductive CycleAction where
  | sleep (seconds : ℚ)
  | buyCall (amount_sol : ℚ)
  | sellCall (amount : Int)
  deriving DecidableEq, Repr

/-- The rest-delay expression of `run_wallet_cycle` (src/trading.py,
line 105): `fixed_rest_delay if fixed_rest_delay > 0 else 1`. -/
def restDelaySeconds (fixed_rest_delay : Int) : Int :=
  if fixed_rest_delay > 0 then fixed_rest_delay else 1

/-- One iteration of the body of `run_wallet_cycle`'s `while` loop
(src/trading.py, lines 38–105), entered with the stored
`agent_last_buy` entry for this agent's key (`none` when the key is
absent).  Returns the action list of the iteration and the stored entry
after it:
* `fixed_buy <= 0` ⇒ sleep 5 s and `continue`;
* `sol_balance < fixed_buy` ⇒ sleep 5 s and `continue`;
* buy failure ⇒ sleep 1 s and `continue`;
* buy success ⇒ store the output amount; if `sell_enabled`, sleep
  `fixed_sell_delay`, read the stored amount, sell only when it is `> 0`
  (clearing it to `0` on sell success); finally sleep the rest delay. -/
def cycleIter (env : IterEnv) (stored : Option Int) : List CycleAction × Option Int :=
  if env.settings.fixed_buy ≤ 0 then
    ([CycleAction.sleep 5], stored)
  else if env.sol_balance < env.settings.fixed_buy then
    ([CycleAction.sleep 5], stored)
  else
    match env.buyResult with
    | none => ([CycleAction.buyCall env.settings.fixed_buy, CycleAction.sleep 1], stored)
    | some (_, out_amount) =>
      let afterBuy : Option Int := some out_amount
      let sellPart : List CycleAction × Option Int :=
        if env.settings.sell_enabled then
          if afterBuy.getD 0 > 0 then
            match env.sellResult with
            | some _ =>
              ([CycleAction.sleep (env.settings.fixed_sell_delay : ℚ),
                CycleAction.sellCall (afterBuy.getD 0)], some 0)
            | none =>
              ([CycleAction.sleep (env.settings.fixed_sell_delay : ℚ),
                CycleAction.sellCall (afterBuy.getD 0)], afterBuy)
          else
            ([CycleAction.sleep (env.settings.fixed_sell_delay : ℚ)], afterBuy)
        else
          ([], afterBuy)
      (CycleAction.buyCall env.settings.fixed_buy ::
          sellPart.1 ++ [CycleAction.sleep ((restDelaySeconds env.settings.fixed_rest_delay : Int) : ℚ)],
        sellPart.2)

/-- The `while active_trading.get(user_id, False)` loop of
`run_wallet_cycle` (src/trading.py, line 37), observed for at most `n`
iterations: the flag is read exactly once per iteration, at the loop
head; a false flag exits immediately with no further action. -/
def run_wallet_cycle :
    (Nat → IterEnv) → Option Int → Nat → List CycleAction × Option Int
  | _, stored, 0 => ([], stored)
  | envs, stored, n + 1 =>
    if (envs 0).flagAtCheck then
      let r := cycleIter (envs 0) stored
      let rest := run_wallet_cycle (fun k => envs (k + 1)) r.2 n
      (r.1 ++ rest.1, rest.2)
    else
      ([], stored)

/-- Exactly `m` iterations of the cycle body, run unconditionally (no flag
check): the reference trace for the first `m` iterations of
`run_wallet_cycle`. -/
def cycleTrace :
    (Nat → IterEnv) → Option Int → Nat → List CycleAction × Option Int
  | _, stored, 0 => ([], stored)
  | envs, stored, n + 1 =>
    let r := cycleIter (envs 0) stored
    let rest := cycleTrace (fun k => envs (k + 1)) r.2 n
    (r.1 ++ rest.1, rest.2)

/-- An agent wallet record as the fund-transfer operations see it:
`keyOk` is whether `Keypair.from_secret_key(base58.b58decode(...))`
succeeds on its stored key, `balance` the SOL balance `get_sol_balance`
reports, `transferOk` whether the ledger accepts the transfer submitted
from/to it. -/
structure AgentWallet where
  agent_name : String
  keyOk : Bool
  balance : ℚ
  transferOk : Bool
  deriving DecidableEq, Repr

/-- The root wallet record: whether its stored key decodes. -/
structure RootWallet where
  keyOk : Bool
  deriving DecidableEq, Repr

/-- One report line of `load_all_agents` for one agent. -/
inductive LoadResult where
  | success (agent_name : String)
  | failed (agent_name : String)
  deriving DecidableEq, Repr

/-- Overall result of `load_all_agents`. -/
inductive LoadOutcome where
  | missingRootOrAgents
  | report (lines : List LoadResult)
  deriving DecidableEq, Repr

/-- The per-agent transfer of `load_all_agents`: only the
`send_transaction` call sits in a `try`/`except`, so the outcome is one
report line, success or failure. -/
def loadAgent (a : AgentWallet) : LoadResult :=
  if a.transferOk then LoadResult.success a.agent_name
  else LoadResult.failed a.agent_name

/-- The agent loop of `load_all_agents` (src/load_withdrawal.py,
lines 30–46).  The key decode on line 31 is *outside* the `try` block, so
an agent whose key fails to decode raises out of the whole function
(`none`), discarding the report and skipping every remaining agent. -/
def loadAgentsGo : List AgentWallet → Option (List LoadResult)
  | [] => some []
  | a :: rest =>
    if a.keyOk then (loadAgentsGo rest).map (fun ls => loadAgent a :: ls)
    else none

/-- The function `load_all_agents` (src/load_withdrawal.py, lines 14–46): missing root
or no agents ⇒ an error message; root key decode (line 28, outside any
`try`) failing ⇒ the exception escapes (`none`); otherwise one transfer
attempt per agent and one report line each, except that an agent key
decode failure raises and aborts the rest. -/
def load_all_agents (root : Option RootWallet) (agents : List AgentWallet) :
    Option LoadOutcome :=
  match root with
  | none => some LoadOutcome.missingRootOrAgents
  | some r =>
    if agents.isEmpty then some LoadOutcome.missingRootOrAgents
    else if r.keyOk then (loadAgentsGo agents).map LoadOutcome.report
    else none

/-- One report line of `collect_agents_to_root` for one agent. -/
inductive CollectResult where
  | keyDecodeError (agent_name : String)
  | insufficient (agent_name : String)
  | collected (agent_name : String) (lamports : Int)
  | transferFailed (agent_name : String)
  deriving DecidableEq, Repr

/-- Overall result of `collect_agents_to_root`. -/
inductive CollectOutcome where
  | noRoot
  | noAgents
  | rootKeyError
  | report (lines : List CollectResult)
  deriving DecidableEq, Repr

/-- The `MIN_BALANCE` constant of `collect_agents_to_root`
(src/load_withdrawal.py, line 104): 0.001 SOL kept in each agent. -/
def MIN_BALANCE : ℚ := 1 / 1000

/-- The per-agent body of `collect_agents_to_root`'s loop
(src/load_withdrawal.py, lines 105–132): key decode failure ⇒ one
"Key decode error" line; `balance <= MIN_BALANCE` ⇒ one "Insufficient
balance" line, no transfer attempted; otherwise transfer
`int((balance - MIN_BALANCE) * 1_000_000_000)` lamports, reporting the
amount on success or "Transfer failed". -/
def collectAgent (minReserve : ℚ) (a : AgentWallet) : CollectResult :=
  if a.keyOk = false then CollectResult.keyDecodeError a.agent_name
  else if a.balance ≤ minReserve then CollectResult.insufficient a.agent_name
  else if a.transferOk then
    CollectResult.collected a.agent_name (pyInt ((a.balance - minReserve) * 1000000000))
  else CollectResult.transferFailed a.agent_name

/-- The function `collect_agents_to_root` (src/load_withdrawal.py, lines 79–133):
missing root / no agents / root key decode failure each yield an early
message; otherwise every agent is processed by its own loop iteration,
every failure handled inside that iteration. -/
def collect_agents_to_root (root : Option RootWallet) (agents : List AgentWallet) :
    CollectOutcome :=
  match root with
  | none => CollectOutcome.noRoot
  | some r =>
    if agents.isEmpty then CollectOutcome.noAgents
    else if r.keyOk then CollectOutcome.report (agents.map (collectAgent MIN_BALANCE))
    else CollectOutcome.rootKeyError

/-! ### Concrete sample inputs used to evaluate the definitions -/

/-- A well-formed quote body: truthy, route plan with one leg. -/
def sampleQuoteData : QuoteData :=
  { isEmpty := false, routePlan := some [()], outAmount := some 42 }

/-- A quote body whose `"routePlan"` key is present but holds an empty
list. -/
def emptyRoutePlanData : QuoteData :=
  { isEmpty := false, routePlan := some [], outAmount := some 42 }

/-- A truthy quote body lacking the `"routePlan"` key. -/
def noRoutePlanData : QuoteData :=
  { isEmpty := false, routePlan := none, outAmount := some 42 }

/-- Endpoint that always answers 429 with `Retry-After: 7`. -/
def env429 : Nat → QuoteEvent :=
  fun _ => QuoteEvent.response 429 (some 7) sampleQuoteData

/-- Endpoint that always answers 500. -/
def env500 : Nat → QuoteEvent :=
  fun _ => QuoteEvent.response 500 none sampleQuoteData

/-- Endpoint whose connection always fails. -/
def envDown : Nat → QuoteEvent :=
  fun _ => QuoteEvent.transportError

/-- Endpoint that answers 200 with a well-formed quote. -/
def envGood : Nat → QuoteEvent :=
  fun _ => QuoteEvent.response 200 none sampleQuoteData

/-- Endpoint that answers 200 with an empty route plan under the
`"routePlan"` key. -/
def envEmptyRoute : Nat → QuoteEvent :=
  fun _ => QuoteEvent.response 200 none emptyRoutePlanData

/-- Endpoint that answers 200 with a body lacking the `"routePlan"`
key. -/
def envNoRoute : Nat → QuoteEvent :=
  fun _ => QuoteEvent.response 200 none noRoutePlanData

/-- A swap environment whose quote endpoint is down. -/
def downSwapEnv : SwapEnv :=
  { quoteEvents := envDown, swapResult := none }

/-- An iteration environment where the buy succeeded with output 555 and
the sell succeeds. -/
def c2Env : IterEnv :=
  { flagAtCheck := true
    settings :=
      { fixed_buy := 1, fixed_sell_delay := 3, fixed_rest_delay := 2, sell_enabled := true }
    sol_balance := 2
    buyResult := some ("txbuy", 555)
    sellResult := some "txsell" }

/-- An iteration environment where the buy failed. -/
def c2FailEnv : IterEnv :=
  { flagAtCheck := true
    settings :=
      { fixed_buy := 1, fixed_sell_delay := 3, fixed_rest_delay := 2, sell_enabled := true }
    sol_balance := 2
    buyResult := none
    sellResult := some "txsell" }

/-- An iteration environment whose agent has `fixed_buy = 0`. -/
def c3Env : IterEnv :=
  { flagAtCheck := true
    settings :=
      { fixed_buy := 0, fixed_sell_delay := 0, fixed_rest_delay := 0, sell_enabled := true }
    sol_balance := 5
    buyResult := none
    sellResult := none }

/-- A constant stream of `c3Env` iterations. -/
def c3Envs : Nat → IterEnv :=
  fun _ => c3Env

/-- An iteration stream whose `ActiveFlag` is true for iteration 0 and
false from iteration 1 on. -/
def c6Envs : Nat → IterEnv :=
  fun k => { c2Env with flagAtCheck := k = 0 }

/-- An iteration environment that reaches the Resting step with
`fixed_rest_delay = 0`. -/
def c7Env : IterEnv :=
  { flagAtCheck := true
    settings :=
      { fixed_buy := 1, fixed_sell_delay := 3, fixed_rest_delay := 0, sell_enabled := true }
    sol_balance := 2
    buyResult := some ("tx", 5)
    sellResult := some "ts" }

/-- A quote body with a usable route plan whose `"outAmount"` field is
missing, so `int(out_amount_str)` raises and the parsed amount defaults
to 0. -/
def c10QuoteData : QuoteData :=
  { isEmpty := false, routePlan := some [()], outAmount := none }

/-- A swap environment delivering `c10QuoteData` on status 200 and a
successful swap execution. -/
def c10SwapEnv : SwapEnv :=
  { quoteEvents := fun _ => QuoteEvent.response 200 none c10QuoteData
    swapResult := some "sig" }

/-- The cycle iteration fed with the result of the `c10SwapEnv` buy. -/
def c10IterEnv : IterEnv :=
  { flagAtCheck := true
    settings :=
      { fixed_buy := 1, fixed_sell_delay := 0, fixed_rest_delay := 0, sell_enabled := true }
    sol_balance := 2
    buyResult := (buy_token_jupiter c10SwapEnv 1).result
    sellResult := some "sig2" }

/-- An agent wallet whose stored key fails to decode. -/
def badKeyAgent : AgentWallet := { agent_name := "A", keyOk := false, balance := 1, transferOk := true }

/-- An agent wallet that decodes and transfers fine. -/
def goodAgent : AgentWallet := { agent_name := "B", keyOk := true, balance := 1, transferOk := true }

/-- An agent wallet whose transfer is rejected by the ledger. -/
def failTransferAgent : AgentWallet := { agent_name := "C", keyOk := true, balance := 1, transferOk := false }

/-- An agent holding 0.01 SOL. -/
def richAgent : AgentWallet := { agent_name := "R", keyOk := true, balance := 1 / 100, transferOk := true }

/-- An agent holding 0.0005 SOL, below the 0.001 reserve. -/
def poorAgent : AgentWallet := { agent_name := "P", keyOk := true, balance := 1 / 2000, transferOk := true }

/-- A root wallet whose key decodes. -/
def goodRoot : RootWallet := { keyOk := true }

/-! ### Helper lemmas -/

/-- Applying `int(...)` to an integral rational returns that integer. -/
lemma pyInt_intCast (k : ℤ) : pyInt (k : ℚ) = k := by
  simp [pyInt, Rat.num_intCast, Rat.den_intCast]

/-- On a nonnegative rational, Python's `int(...)` agrees with the
floor. -/
lemma pyInt_eq_floor (q : ℚ) (h : 0 ≤ q) : pyInt q = ⌊q⌋ := by
  rw [pyInt, Rat.floor_def]
  exact Int.tdiv_eq_ediv (Rat.num_nonneg.mpr h) (Int.ofNat_nonneg _)

/-- Under sustained failure (every attempt rate-limited or failing at
transport level) the quote loop consumes its whole budget, sleeping once
per attempt, and ends with the empty result. -/
lemma getQuoteGo_sustained_failure (env : Nat → QuoteEvent)
    (h : ∀ k, env k = QuoteEvent.transportError ∨
      ∃ ra d, env k = QuoteEvent.response 429 ra d) :
    ∀ remaining attempt,
      (getQuoteGo env attempt remaining).1 = QuoteOutcome.empty ∧
        (getQuoteGo env attempt remaining).2.length = remaining := by
  intro remaining
  induction remaining with
  | zero => intro attempt; simp [getQuoteGo]
  | succ n ih =>
    intro attempt
    rcases h attempt with he | ⟨ra, d, he⟩
    · simpa [getQuoteGo, he] using ih (attempt + 1)
    · simpa [getQuoteGo, he] using ih (attempt + 1)

/-- The rest-delay expression `fixed_rest_delay if fixed_rest_delay > 0
else 1` equals `max fixed_rest_delay 1` on the integers. -/
lemma restDelaySeconds_eq_max (d : Int) : restDelaySeconds d = max d 1 := by
  unfold restDelaySeconds
  split
  · exact (max_eq_left (by omega)).symm
  · exact (max_eq_right (by omega)).symm

/-! ### Claims -/

/-- C1: for every call to `jupiter_get_quote`, status handling follows the
documented algorithm — an HTTP 429 response sleeps the server-provided
retry delay (default 5 s) and retries, counted against `max_retries`; any
other non-success status returns the empty result immediately with no
retry; a transport-level failure sleeps `2^attempt` seconds and retries
against the same budget; and exhausting `max_retries` returns the empty
result (the function is total, so no exception reaches the caller), with
exactly `max_retries` attempts made (one sleep each) under sustained
failure. -/
theorem jupiter_get_quote_status_handling
    (env : Nat → QuoteEvent) (attempt remaining max_retries : Nat) :
    (∀ ra d, env attempt = QuoteEvent.response 429 ra d →
      getQuoteGo env attempt (remaining + 1) =
        ((getQuoteGo env (attempt + 1) remaining).1,
          ra.getD 5 :: (getQuoteGo env (attempt + 1) remaining).2))
    ∧ (∀ s ra d, env attempt = QuoteEvent.response s ra d → s ≠ 429 → s ≠ 200 →
      getQuoteGo env attempt (remaining + 1) = (QuoteOutcome.empty, []))
    ∧ (env attempt = QuoteEvent.transportError →
      getQuoteGo env attempt (remaining + 1) =
        ((getQuoteGo env (attempt + 1) remaining).1,
          2 ^ attempt :: (getQuoteGo env (attempt + 1) remaining).2))
    ∧ getQuoteGo env attempt 0 = (QuoteOutcome.empty, [])
    ∧ ((∀ k, env k = QuoteEvent.transportError ∨
          ∃ ra d, env k = QuoteEvent.response 429 ra d) →
        (jupiter_get_quote env max_retries).1 = QuoteOutcome.empty ∧
          (jupiter_get_quote env max_retries).2.length = max_retries) := by
  refine ⟨?_, ?_, ?_, ?_, ?_⟩
  · intro ra d he
    simp [getQuoteGo, he]
  · intro s ra d he hs429 hs200
    simp [getQuoteGo, he, hs429, hs200]
  · intro he
    simp [getQuoteGo, he]
  · simp [getQuoteGo]
  · intro h
    exact getQuoteGo_sustained_failure env h max_retries 0

/-- Witness for C1: concrete endpoints exercising the 429 branch with
`Retry-After: 7`, the immediate-failure branch on status 500, the
exponential-backoff branch, and budget exhaustion under sustained
transport failure. -/
theorem jupiter_get_quote_status_handling_witness :
    (getQuoteGo env429 0 5 =
      ((getQuoteGo env429 1 4).1, 7 :: (getQuoteGo env429 1 4).2))
    ∧ getQuoteGo env500 0 5 = (QuoteOutcome.empty, [])
    ∧ (getQuoteGo envDown 0 5 =
      ((getQuoteGo envDown 1 4).1, 1 :: (getQuoteGo envDown 1 4).2))
    ∧ ((jupiter_get_quote envDown 5).1 = QuoteOutcome.empty ∧
        (jupiter_get_quote envDown 5).2.length = 5) :=
  ⟨(jupiter_get_quote_status_handling env429 0 4 5).1 (some 7) sampleQuoteData rfl,
   (jupiter_get_quote_status_handling env500 0 4 5).2.1 500 none sampleQuoteData rfl
     (by decide) (by decide),
   (jupiter_get_quote_status_handling envDown 0 4 5).2.2.1 rfl,
   (jupiter_get_quote_status_handling envDown 0 4 5).2.2.2.2 (fun _ => Or.inl rfl)⟩

/-- C4 counterexample: a success response whose `"routePlan"` key holds an
*empty* route plan is returned as a valid quote, not rejected — the code
only tests key presence (`"routePlan" not in data`), so the claim that a
success response lacking a non-empty route plan yields an empty result is
false. -/
theorem jupiter_get_quote_empty_route_plan_counterexample :
    emptyRoutePlanData.routePlan = some [] ∧
      jupiter_get_quote envEmptyRoute 5 =
        (QuoteOutcome.success emptyRoutePlanData, []) :=
  ⟨rfl, rfl⟩

/-- C4 amended: for a success (status 200) response, `jupiter_get_quote`
returns the quote only if the body is non-empty and *contains* the
`"routePlan"` key; a success response with an empty body or without that
key yields the empty result immediately, with no retry.  (The emptiness of
the route plan itself is not checked.) -/
theorem jupiter_get_quote_route_plan_key_check
    (env : Nat → QuoteEvent) (attempt remaining : Nat)
    (ra : Option Nat) (d : QuoteData)
    (h : env attempt = QuoteEvent.response 200 ra d) :
    (d.isEmpty = false → d.routePlan.isSome →
      getQuoteGo env attempt (remaining + 1) = (QuoteOutcome.success d, []))
    ∧ (d.isEmpty = true ∨ d.routePlan = none →
      getQuoteGo env attempt (remaining + 1) = (QuoteOutcome.empty, [])) := by
  constructor
  · intro h1 h2
    obtain ⟨x, hx⟩ := Option.isSome_iff_exists.mp h2
    simp [getQuoteGo, h, h1, hx]
  · rintro (h1 | h1) <;> simp [getQuoteGo, h, h1]

/-- Witness for C4's amended theorem: a well-formed 200 response is
returned; a 200 response missing the `"routePlan"` key yields the empty
result with no retry. -/
theorem jupiter_get_quote_route_plan_key_check_witness :
    getQuoteGo envGood 0 5 = (QuoteOutcome.success sampleQuoteData, [])
    ∧ getQuoteGo envNoRoute 0 5 = (QuoteOutcome.empty, []) :=
  ⟨(jupiter_get_quote_route_plan_key_check envGood 0 4 none sampleQuoteData rfl).1
      rfl rfl,
   (jupiter_get_quote_route_plan_key_check envNoRoute 0 4 none noRoutePlanData rfl).2
      (Or.inr rfl)⟩

/-- C5: the SOL→lamports conversion of `buy_token_jupiter` is exact —
every integral number of lamports converts back to itself, in particular
1.0 SOL gives 1 000 000 000 lamports and 0.0001 SOL gives 100 000 — and
whenever the converted amount is below the dust floor of 100 000 lamports
the buy returns absent without issuing any quote request.  (Python float
arithmetic is modelled as exact rational arithmetic.) -/
theorem buy_conversion_exact_and_dust_floor :
    (∀ k : ℤ, lamports_of_sol ((k : ℚ) / 1000000000) = k)
    ∧ lamports_of_sol 1 = 1000000000
    ∧ lamports_of_sol (1 / 10000) = 100000
    ∧ ∀ (env : SwapEnv) (a : ℚ), lamports_of_sol a < 100000 →
        buy_token_jupiter env a = { result := none, quoteRequested := false } := by
  refine ⟨?_, ?_, ?_, ?_⟩
  · intro k
    have h : ((k : ℚ) / 1000000000 * 1000000000) = ((k : ℤ) : ℚ) := by
      rw [div_mul_cancel₀]
      norm_num
    rw [lamports_of_sol, h, pyInt_intCast]
  · have h : ((1 : ℚ) * 1000000000) = ((1000000000 : ℤ) : ℚ) := by norm_num
    rw [lamports_of_sol, h, pyInt_intCast]
  · have h : ((1 / 10000 : ℚ) * 1000000000) = ((100000 : ℤ) : ℚ) := by norm_num
    rw [lamports_of_sol, h, pyInt_intCast]
  · intro env a hlt
    simp [buy_token_jupiter, hlt]

/-- Witness for C5: 7 lamports round-trip exactly, and a buy of
0.00001 SOL (10 000 lamports, below the dust floor) returns absent with
no quote request. -/
theorem buy_conversion_exact_and_dust_floor_witness :
    lamports_of_sol ((7 : ℚ) / 1000000000) = 7
    ∧ buy_token_jupiter downSwapEnv (1 / 100000) =
        { result := none, quoteRequested := false } :=
  ⟨buy_conversion_exact_and_dust_floor.1 7,
   buy_conversion_exact_and_dust_floor.2.2.2 downSwapEnv (1 / 100000) (by
     have h : ((1 / 100000 : ℚ) * 1000000000) = ((10000 : ℤ) : ℚ) := by norm_num
     rw [lamports_of_sol, h, pyInt_intCast]
     norm_num)⟩

/-- C2: within a cycle iteration the sell step runs only on a strictly
positive stored amount — any executed `sellCall` carries a positive
amount, which is exactly the output amount this iteration's successful
buy stored (with selling enabled); and when the buy failed, no sell is
attempted in that iteration. -/
theorem cycleIter_sell_guard (env : IterEnv) (stored : Option Int) :
    (env.buyResult = none →
      ∀ a, CycleAction.sellCall a ∉ (cycleIter env stored).1)
    ∧ (∀ a, CycleAction.sellCall a ∈ (cycleIter env stored).1 →
        0 < a ∧ env.settings.sell_enabled = true ∧
          ∃ sig, env.buyResult = some (sig, a)) := by
  by_cases h1 : env.settings.fixed_buy ≤ 0
  · constructor
    · intro _ a
      simp [cycleIter, h1]
    · intro a ha
      simp [cycleIter, h1] at ha
  · by_cases h2 : env.sol_balance < env.settings.fixed_buy
    · constructor
      · intro _ a
        simp [cycleIter, h1, h2]
      · intro a ha
        simp [cycleIter, h1, h2] at ha
    · rcases hb : env.buyResult with _ | ⟨sig, out⟩
      · constructor
        · intro _ a
          simp [cycleIter, h1, h2, hb]
        · intro a ha
          simp [cycleIter, h1, h2, hb] at ha
      · constructor
        · intro hnone a
          exact absurd hnone (by simp)
        · intro a ha
          by_cases hse : env.settings.sell_enabled
          · by_cases hout : (0 : Int) < out
            · rcases hs : env.sellResult with _ | s
              · simp [cycleIter, h1, h2, hb, hse, hout, hs] at ha
                subst ha
                exact ⟨hout, hse, sig, rfl⟩
              · simp [cycleIter, h1, h2, hb, hse, hout, hs] at ha
                subst ha
                exact ⟨hout, hse, sig, rfl⟩
            · simp [cycleIter, h1, h2, hb, hse, hout] at ha
          · simp [cycleIter, h1, h2, hb, hse] at ha

/-- Witness for C2: in the environment `c2Env` the executed sell carries
the amount 555 stored by this iteration's buy, and in `c2FailEnv`, where
the buy failed, no sell with amount 555 occurs. -/
theorem cycleIter_sell_guard_witness :
    (0 < (555 : Int) ∧ c2Env.settings.sell_enabled = true ∧
      ∃ sig, c2Env.buyResult = some (sig, 555))
    ∧ CycleAction.sellCall 555 ∉ (cycleIter c2FailEnv none).1 :=
  ⟨(cycleIter_sell_guard c2Env none).2 555
      (by norm_num [cycleIter, c2Env, restDelaySeconds]),
   (cycleIter_sell_guard c2FailEnv none).1 rfl 555⟩

/-- C3: while an agent's settings have `fixed_buy ≤ 0`, no iteration of
the cycle ever invokes the buy operation — each iteration only sleeps
5 seconds and re-enters the settings check, and the stored trade state
never advances. -/
theorem run_wallet_cycle_no_buy_when_unconfigured
    (envs : Nat → IterEnv) (stored : Option Int) (n : Nat)
    (h : ∀ k, (envs k).settings.fixed_buy ≤ 0) :
    (∀ a, CycleAction.buyCall a ∉ (run_wallet_cycle envs stored n).1)
    ∧ (run_wallet_cycle envs stored n).2 = stored
    ∧ (∀ act ∈ (run_wallet_cycle envs stored n).1, act = CycleAction.sleep 5) := by
  induction n generalizing envs stored with
  | zero => simp [run_wallet_cycle]
  | succ n ih =>
    by_cases hf : (envs 0).flagAtCheck
    · have hiter : cycleIter (envs 0) stored = ([CycleAction.sleep 5], stored) := by
        simp [cycleIter, h 0]
      have heq : run_wallet_cycle envs stored (n + 1) =
          (CycleAction.sleep 5 :: (run_wallet_cycle (fun k => envs (k + 1)) stored n).1,
            (run_wallet_cycle (fun k => envs (k + 1)) stored n).2) := by
        simp [run_wallet_cycle, hf, hiter]
      obtain ⟨ih1, ih2, ih3⟩ := ih (fun k => envs (k + 1)) stored (fun k => h (k + 1))
      rw [heq]
      refine ⟨?_, ih2, ?_⟩
      · intro a hmem
        rcases List.mem_cons.mp hmem with hc | hc
        · exact absurd hc (by simp)
        · exact ih1 a hc
      · intro act hmem
        rcases List.mem_cons.mp hmem with hc | hc
        · exact hc
        · exact ih3 act hc
    · simp [run_wallet_cycle, hf]

/-- Witness for C3: three iterations of an agent configured with
`fixed_buy = 0` perform no buy, leave the stored state empty, and do
nothing but sleep 5 seconds. -/
theorem run_wallet_cycle_no_buy_when_unconfigured_witness :
    CycleAction.buyCall 0 ∉ (run_wallet_cycle c3Envs none 3).1
    ∧ (run_wallet_cycle c3Envs none 3).2 = none :=
  ⟨(run_wallet_cycle_no_buy_when_unconfigured c3Envs none 3 (fun _ => le_refl 0)).1 0,
   (run_wallet_cycle_no_buy_when_unconfigured c3Envs none 3 (fun _ => le_refl 0)).2.1⟩

/-- The loop equals the unconditional trace of exactly the first `m`
iterations when the flag is true at the first `m` boundary checks and
false at the next one. -/
lemma run_wallet_cycle_eq_cycleTrace (m : Nat) :
    ∀ (envs : Nat → IterEnv) (stored : Option Int) (n : Nat), m ≤ n →
      (∀ k, k < m → (envs k).flagAtCheck = true) →
      (envs m).flagAtCheck = false →
      run_wallet_cycle envs stored n = cycleTrace envs stored m := by
  induction m with
  | zero =>
    intro envs stored n _ _ hstop
    cases n with
    | zero => simp [run_wallet_cycle, cycleTrace]
    | succ n => simp [run_wallet_cycle, cycleTrace, hstop]
  | succ m ih =>
    intro envs stored n hm hrun hstop
    obtain ⟨n', rfl⟩ : ∃ n', n = n' + 1 := ⟨n - 1, by omega⟩
    have hf0 : (envs 0).flagAtCheck = true := hrun 0 (Nat.succ_pos m)
    have hrec := ih (fun k => envs (k + 1)) (cycleIter (envs 0) stored).2 n'
      (by omega) (fun k hk => hrun (k + 1) (by omega)) hstop
    simp only [run_wallet_cycle, cycleTrace, hf0, if_true]
    rw [hrec]

/-- C6: a change of the `ActiveFlag` is observed only at the
`CheckSettings` boundary — the loop equals the full, uninterrupted trace
of every iteration begun before the first false flag check (each such
iteration completes all its waits and its whole cycle segment), exits
exactly at the boundary where the flag is false, and the iteration body
itself is insensitive to the flag value. -/
theorem run_wallet_cycle_stop_at_boundary
    (envs : Nat → IterEnv) (stored : Option Int) (n m : Nat)
    (hm : m ≤ n)
    (hrun : ∀ k, k < m → (envs k).flagAtCheck = true)
    (hstop : (envs m).flagAtCheck = false) :
    run_wallet_cycle envs stored n = cycleTrace envs stored m
    ∧ ∀ (env : IterEnv) (b : Bool) (s : Option Int),
        cycleIter { env with flagAtCheck := b } s = cycleIter env s := by
  refine ⟨run_wallet_cycle_eq_cycleTrace m envs stored n hm hrun hstop, ?_⟩
  intro env b s
  cases env
  rfl

/-- Witness for C6: with the flag true at iteration 0 and false from
iteration 1 on, a three-iteration observation of the loop equals the
full one-iteration trace. -/
theorem run_wallet_cycle_stop_at_boundary_witness :
    run_wallet_cycle c6Envs none 3 = cycleTrace c6Envs none 1 :=
  (run_wallet_cycle_stop_at_boundary c6Envs none 3 1 (by omega)
    (fun k hk => by
      have hk0 : k = 0 := by omega
      subst hk0
      rfl)
    rfl).1

/-- C7: an iteration that reaches the Resting step (successful buy) ends
by sleeping `max(fixed_rest_delay, 1)` seconds before returning to the
settings check.  (`fixed_rest_delay` is an `INT` column, and on integers
the source expression `fixed_rest_delay if fixed_rest_delay > 0 else 1`
equals `max(fixed_rest_delay, 1)`.) -/
theorem cycleIter_resting_sleep (env : IterEnv) (stored : Option Int)
    (sig : String) (out : Int)
    (hb : env.buyResult = some (sig, out))
    (hfb : ¬env.settings.fixed_buy ≤ 0)
    (hbal : ¬env.sol_balance < env.settings.fixed_buy) :
    (cycleIter env stored).1.getLast? =
      some (CycleAction.sleep ((max env.settings.fixed_rest_delay 1 : Int) : ℚ)) := by
  simp only [cycleIter, hb, hfb, hbal, if_false, restDelaySeconds_eq_max]
  exact List.getLast?_concat _

/-- Witness for C7: the `c7Env` iteration, whose `fixed_rest_delay` is 0,
ends with a sleep of `max 0 1 = 1` second. -/
theorem cycleIter_resting_sleep_witness :
    (cycleIter c7Env none).1.getLast? =
      some (CycleAction.sleep ((max (0 : Int) 1 : Int) : ℚ)) :=
  cycleIter_resting_sleep c7Env none "tx" 5 rfl
    (by norm_num [c7Env]) (by norm_num [c7Env])

/-- C10: there are inputs on which `buy_token_jupiter` returns a success
whose output amount is 0 — a quote with a usable route plan but a missing
(or unparsable) `outAmount` field combined with a successful swap yields
`(signature, 0)`; the cycle then stores 0 as the trade state, so the
iteration's action list contains no sell call and the acquired position
stays untracked. -/
theorem buy_zero_out_amount_skips_sell :
    (buy_token_jupiter c10SwapEnv 1).result = some ("sig", 0)
    ∧ cycleIter c10IterEnv none =
        ([CycleAction.buyCall 1, CycleAction.sleep 0, CycleAction.sleep 1], some 0) := by
  have hl : lamports_of_sol 1 = 1000000000 := by
    have h : ((1 : ℚ) * 1000000000) = ((1000000000 : ℤ) : ℚ) := by norm_num
    rw [lamports_of_sol, h, pyInt_intCast]
  have hbuy : (buy_token_jupiter c10SwapEnv 1).result = some ("sig", 0) := by
    simp only [buy_token_jupiter, hl]
    rw [if_neg (by norm_num : ¬(1000000000 : Int) < 100000)]
    rfl
  refine ⟨hbuy, ?_⟩
  have hset : c10IterEnv.settings =
      { fixed_buy := 1, fixed_sell_delay := 0, fixed_rest_delay := 0,
        sell_enabled := true } := rfl
  have hbr : c10IterEnv.buyResult = some ("sig", 0) := hbuy
  simp only [cycleIter, hset, hbr]
  norm_num [c10IterEnv, restDelaySeconds]

/-- C8: under the sweep's reserve of 0.001 SOL, an agent whose balance is
at most the reserve is reported insufficient with no transfer attempted;
an agent whose balance exceeds it has `balance − 0.001` SOL transferred,
exact up to the truncation of `int((balance − 0.001) * 1e9)` to whole
lamports (the transferred lamports sit within one lamport below the exact
difference); in particular a balance of 0.01 SOL transfers exactly
9 000 000 lamports = 0.009 SOL. -/
theorem collect_skip_and_transfer_amount (a : AgentWallet) (hk : a.keyOk = true) :
    (a.balance ≤ MIN_BALANCE →
      collectAgent MIN_BALANCE a = CollectResult.insufficient a.agent_name)
    ∧ (MIN_BALANCE < a.balance → a.transferOk = true →
        collectAgent MIN_BALANCE a =
          CollectResult.collected a.agent_name
            (pyInt ((a.balance - MIN_BALANCE) * 1000000000))
        ∧ ((pyInt ((a.balance - MIN_BALANCE) * 1000000000) : ℚ) ≤
            (a.balance - MIN_BALANCE) * 1000000000
          ∧ (a.balance - MIN_BALANCE) * 1000000000 <
            (pyInt ((a.balance - MIN_BALANCE) * 1000000000) : ℚ) + 1))
    ∧ (a.balance = 1 / 100 → a.transferOk = true →
        collectAgent MIN_BALANCE a = CollectResult.collected a.agent_name 9000000) := by
  refine ⟨?_, ?_, ?_⟩
  · intro hle
    simp [collectAgent, hk, hle]
  · intro hlt htr
    have hq0 : (0 : ℚ) ≤ (a.balance - MIN_BALANCE) * 1000000000 := by
      have : (0 : ℚ) ≤ a.balance - MIN_BALANCE := by linarith
      positivity
    have hfl := pyInt_eq_floor _ hq0
    refine ⟨by simp [collectAgent, hk, not_le.mpr hlt, htr], ?_, ?_⟩
    · rw [hfl]
      exact Int.floor_le _
    · rw [hfl]
      exact Int.lt_floor_add_one _
  · intro hbal htr
    have hv : pyInt ((a.balance - MIN_BALANCE) * 1000000000) = 9000000 := by
      have h : ((a.balance - MIN_BALANCE) * 1000000000) = ((9000000 : ℤ) : ℚ) := by
        rw [hbal, MIN_BALANCE]
        norm_num
      rw [h, pyInt_intCast]
    have hlt : MIN_BALANCE < a.balance := by
      rw [hbal, MIN_BALANCE]
      norm_num
    rw [← hv]
    simp [collectAgent, hk, not_le.mpr hlt, htr]

/-- Witness for C8: the agent holding 0.01 SOL yields a collected
transfer of 9 000 000 lamports; the agent holding 0.0005 SOL is reported
insufficient. -/
theorem collect_skip_and_transfer_amount_witness :
    collectAgent MIN_BALANCE richAgent = CollectResult.collected "R" 9000000
    ∧ collectAgent MIN_BALANCE poorAgent = CollectResult.insufficient "P" :=
  ⟨(collect_skip_and_transfer_amount richAgent rfl).2.2 rfl rfl,
   (collect_skip_and_transfer_amount poorAgent rfl).1
     (by norm_num [poorAgent, MIN_BALANCE])⟩

/-- C9 counterexample: in `load_all_agents` (distribute) the per-agent key
decode sits outside the `try` block, so one agent's key-decode failure
raises out of the function — the remaining agent is never processed and no
report is produced — refuting the claim that a key-decode failure never
prevents remaining wallets from being processed. -/
theorem load_all_agents_key_decode_aborts :
    load_all_agents (some goodRoot) [badKeyAgent, goodAgent] = none := rfl

/-- C9 amended: distribute and sweep process each agent wallet
independently with respect to transfer failures — each processed wallet
contributes exactly one report line, a function of that wallet alone, so
one wallet's failing transfer never prevents the remaining wallets from
being processed — and sweep is additionally independent with respect to
per-agent key-decode failures: *for every agent list, decodable or not*,
sweep's report is the per-agent map, an agent with an undecodable key
contributing exactly its own "Key decode error" line while every other
agent is still processed by its own line.  In distribute, however, the
per-agent report form is only reached when every key decodes: an agent
key-decode failure raises and aborts the remaining wallets. -/
theorem fund_ops_per_wallet_independence
    (root : RootWallet) (agents : List AgentWallet)
    (hroot : root.keyOk = true) (hne : agents ≠ []) :
    ((∀ a ∈ agents, a.keyOk = true) →
      load_all_agents (some root) agents =
        some (LoadOutcome.report (agents.map loadAgent)))
    ∧ collect_agents_to_root (some root) agents =
        CollectOutcome.report (agents.map (collectAgent MIN_BALANCE))
    ∧ (∀ a ∈ agents, a.keyOk = false →
        collectAgent MIN_BALANCE a = CollectResult.keyDecodeError a.agent_name)
    ∧ (agents.map loadAgent).length = agents.length
    ∧ (agents.map (collectAgent MIN_BALANCE)).length = agents.length := by
  have hgo : ∀ l : List AgentWallet, (∀ a ∈ l, a.keyOk = true) →
      loadAgentsGo l = some (l.map loadAgent) := by
    intro l
    induction l with
    | nil => intro _; rfl
    | cons a rest ih =>
      intro hl
      simp [loadAgentsGo, hl a (by simp),
        ih (fun x hx => hl x (List.mem_cons_of_mem a hx))]
  refine ⟨?_, ?_, ?_, by simp, by simp⟩
  · intro hkeys
    simp [load_all_agents, hroot, hne, hgo agents hkeys]
  · simp [collect_agents_to_root, hroot, hne]
  · intro a _ hk
    simp [collectAgent, hk]

/-- Witness for C9's amended theorem: sweep over a list whose *first*
agent has an undecodable key still reports one line per agent — the bad
key yields its own "Key decode error" line, the following agents are
still processed, one to a successful collection and one to a failed
transfer; distribute with every key decodable reports one line per agent,
failures and successes side by side. -/
theorem fund_ops_per_wallet_independence_witness :
    collect_agents_to_root (some goodRoot) [badKeyAgent, richAgent, failTransferAgent] =
      CollectOutcome.report
        [CollectResult.keyDecodeError "A", CollectResult.collected "R" 9000000,
          CollectResult.transferFailed "C"]
    ∧ collectAgent MIN_BALANCE badKeyAgent = CollectResult.keyDecodeError "A"
    ∧ load_all_agents (some goodRoot) [failTransferAgent, goodAgent] =
        some (LoadOutcome.report [LoadResult.failed "C", LoadResult.success "B"]) := by
  refine ⟨?_, ?_, ?_⟩
  · have h1 : collectAgent MIN_BALANCE badKeyAgent =
        CollectResult.keyDecodeError "A" := rfl
    have h2 : collectAgent MIN_BALANCE richAgent =
        CollectResult.collected "R" 9000000 := by
      have hv : pyInt ((richAgent.balance - MIN_BALANCE) * 1000000000) = 9000000 := by
        have h : ((richAgent.balance - MIN_BALANCE) * 1000000000) =
            ((9000000 : ℤ) : ℚ) := by
          simp only [richAgent, MIN_BALANCE]
          norm_num
        rw [h, pyInt_intCast]
      rw [← hv]
      norm_num [collectAgent, richAgent, MIN_BALANCE]
    have h3 : collectAgent MIN_BALANCE failTransferAgent =
        CollectResult.transferFailed "C" := by
      norm_num [collectAgent, failTransferAgent, MIN_BALANCE]
    rw [(fund_ops_per_wallet_independence goodRoot
        [badKeyAgent, richAgent, failTransferAgent] rfl (by simp)).2.1]
    simp [h1, h2, h3]
  · exact (fund_ops_per_wallet_independence goodRoot
      [badKeyAgent, richAgent, failTransferAgent] rfl (by simp)).2.2.1
      badKeyAgent (by simp) rfl
  · exact (fund_ops_per_wallet_independence goodRoot [failTransferAgent, goodAgent]
      rfl (by simp)).1
      (by
        intro a ha
        simp only [List.mem_cons, List.mem_singleton] at ha
        rcases ha with rfl | rfl | h
        · rfl
        · rfl
        · exact absurd h (List.not_mem_nil a))

end Lynx
